import Mathlib

/-!
Shallow embedding of `extensions_pdf_to_csv.py` (a fetch–cache–transform
pipeline that downloads PDF reports, extracts their tables and writes CSV
files), together with theorems settling the frozen claims about it.

Conventions of the embedding:
* Python strings are Lean `String`s; character-level operations work on
  `String.data : List Char`.
* Timestamps (`st_mtime`, parsed `Last-Modified`) are `Int` seconds.
* Python exceptions are the `PyErr` type; a function that can raise returns
  `Except PyErr _`.  `data_to_csv` additionally *returns* a caught
  `ValueError` as a value (Python `Union[str, ValueError]`), modelled by
  `DtcResult`.
* The filesystem is an association list from path to `FileInfo`
  (modification time and content); writing shadows the previous entry.
* pandas `DataFrame`s coming out of camelot are the `Df` structure: a
  column count and a list of rows of cells; a cell is `Option String`
  (`none` = NaN, which only arises from `pd.concat` padding).
-/

/-- Python exception kinds that can arise in the translated code paths. -/
inductive PyErr where
  | indexError
  | keyError
  | attributeError
  | valueError
  | fileNotFound
  | camelotError
  deriving DecidableEq, Repr

/-- Characters stripped by Python's `str.strip()` (ASCII whitespace). -/
def pyIsSpaceChar (c : Char) : Bool :=
  c == ' ' || c == '\t' || c == '\n' || c == '\r' || c == '\x0b' || c == '\x0c'

/-- `str.strip()` on a character list: drop whitespace at both ends. -/
def pyStripList (l : List Char) : List Char :=
  ((l.dropWhile pyIsSpaceChar).reverse.dropWhile pyIsSpaceChar).reverse

/-- `str.strip()` on a `String`. -/
def pyStrip (s : String) : String :=
  ⟨pyStripList s.data⟩

/-- ASCII reading of the regex class `\w`: alphanumeric or underscore. -/
def isWordChar (c : Char) : Bool :=
  c.isAlphanum || c == '_'

/-- Characters kept by `re.sub(r"(?u)[^-\w.]", "", s)`:
alphanumerics, underscore, dash and dot. -/
def keepChar (c : Char) : Bool :=
  isWordChar c || c == '-' || c == '.'

/-- `get_valid_filename` from the source: strip leading/trailing whitespace,
turn remaining spaces into underscores, and delete every character that is
not an alphanumeric, dash, underscore or dot. -/
def get_valid_filename (s : String) : String :=
  ⟨((pyStripList s.data).map (fun c => if c == ' ' then '_' else c)).filter keepChar⟩

/-- Python `str.split(sep)` for a one-character separator, on character
lists; always returns a non-empty list of fields. -/
def splitOnChar (sep : Char) : List Char → List (List Char)
  | [] => [[]]
  | c :: rest =>
    let r := splitOnChar sep rest
    if c == sep then [] :: r
    else (c :: r.headD []) :: r.tail

/-- Python `url.split("/")[-1]`: the trailing path segment
(`str.split` always returns a non-empty list). -/
def lastSegment (s : String) : String :=
  ⟨(splitOnChar '/' s.data).getLastD []⟩

/-- The cache filename the fetch stage derives from a URL (source line
`filename = get_valid_filename(url.split("/")[-1])`). -/
def url_filename (url : String) : String :=
  get_valid_filename (lastSegment url)

/-- `os.path.join` for the relative POSIX paths used by the program. -/
def pathJoin (a b : String) : String :=
  a ++ "/" ++ b

/-- The staleness test the source duplicates at both cache sites
(`disk_time = -1; if exists: disk_time = mtime; if disk_time == -1 or
disk_time < reference`): the candidate's time when it exists, the sentinel
`-1` when it does not. -/
def stale_decision (reference_time : Int) (candidate_time : Option Int) : Bool :=
  let disk_time : Int :=
    match candidate_time with
    | none => -1
    | some t => t
  disk_time == -1 || disk_time < reference_time

/-- The spec's `StalenessOracle` contract, written from its words: stale iff
the candidate artifact is absent or strictly older than the reference. -/
def is_stale (reference_time : Int) (candidate_time : Option Int) : Bool :=
  match candidate_time with
  | none => true
  | some t => decide (t < reference_time)

/-- A table cell: `none` is pandas NaN (arises only from `pd.concat`
padding), `some s` a string cell as produced by camelot. -/
abbrev Cell := Option String

/-- A pandas `DataFrame` as produced by camelot and `pd.concat`: integer
column labels `0..ncols-1` and a list of rows of cells.  Rectangularity
(`every row has length ncols`) holds for real DataFrames and is carried as
the hypothesis `DfWF` in the theorems. -/
structure Df where
  ncols : Nat
  rows : List (List Cell)
  deriving DecidableEq

/-- Rectangularity of a `DataFrame`: every row has exactly `ncols` cells. -/
def DfWF (d : Df) : Prop :=
  ∀ r ∈ d.rows, r.length = d.ncols

instance (d : Df) : Decidable (DfWF d) :=
  inferInstanceAs (Decidable (∀ r ∈ d.rows, r.length = d.ncols))

/-- Concatenation of lists of lists (`List.join` spelt out so that every
proof can unfold it structurally). -/
def listJoin : List (List α) → List α
  | [] => []
  | l :: ls => l ++ listJoin ls

/-- The widest column count among a list of DataFrames: the column index of
their `pd.concat` (outer join of the ranges `0..ncols-1`). -/
def maxW (dfs : List Df) : Nat :=
  dfs.foldr (fun d m => max d.ncols m) 0

/-- Pad a row with NaN cells up to width `w` (pandas' outer-join alignment
of a short row against a wider column index). -/
def padTo (w : Nat) (r : List Cell) : List Cell :=
  r ++ List.replicate (w - r.length) (none : Cell)

/-- `pd.concat(dfs)` for DataFrames with default integer column labels:
the column index is the widest range, and every row is padded with NaN to
that width. -/
def pdConcat (dfs : List Df) : Df :=
  ⟨maxW dfs, listJoin (dfs.map (fun d => d.rows.map (padTo (maxW dfs))))⟩

/-- The structured outcome of the table-reconciliation part of
`data_to_csv`: either the reconciled header and data rows (what `to_csv`
then serializes), or the `ValueError` that the source catches and returns
as a value. -/
inductive ReconcileOut where
  | table (hdr : List Cell) (rows : List (List Cell))
  | err (e : PyErr)
  deriving DecidableEq

/-- The table-reconciliation logic of `data_to_csv(pdf_path)`, applied to
the region list returned by `camelot.read_pdf`:

* `headers = tables[0].df.iloc[1]` — `IndexError` when there is no region
  or the first region has fewer than two rows;
* `headers[0].strip() != "Number"` — `KeyError` on an empty header row,
  `AttributeError` on a NaN first cell; a mismatch forces the cell to
  `"Number"` and sets `broken_format`;
* `all_data = pd.concat([t.df for t in tables]).iloc[2:]`;
* when `broken_format`, `all_data = all_data.iloc[:, :10]`;
* `all_data.columns = headers` — the caught `ValueError` when the header
  length differs from the column count, returned as a value.

The final `all_data.to_csv()` serialization is applied by `data_to_csv`
below. -/
def reconcile (tables : List Df) : Except PyErr ReconcileOut :=
  match tables with
  | [] => .error .indexError
  | t0 :: _ =>
    match t0.rows[1]? with
    | none => .error .indexError
    | some hdrRow =>
      match hdrRow[0]? with
      | none => .error .keyError
      | some none => .error .attributeError
      | some (some s0) =>
        let broken : Bool := pyStrip s0 != "Number"
        let headers := if broken then hdrRow.set 0 (some "Number") else hdrRow
        let conc := pdConcat tables
        let dataRows := conc.rows.drop 2
        let dataRows2 := if broken then dataRows.map (fun r => r.take 10) else dataRows
        let w2 := if broken then min 10 conc.ncols else conc.ncols
        if headers.length = w2 then .ok (.table headers dataRows2)
        else .ok (.err .valueError)

/-- One field of pandas `to_csv` output: quote when the value contains a
comma, quote, CR or LF, doubling embedded quotes; NaN serializes empty. -/
def csvField : Cell → String
  | none => ""
  | some s =>
    if s.data.any (fun c => c == ',' || c == '"' || c == '\n' || c == '\r') then
      "\"" ++ ⟨listJoin (s.data.map (fun c => if c == '"' then ['"', '"'] else [c]))⟩ ++ "\""
    else s

/-- `DataFrame.to_csv()` with pandas defaults: a leading unnamed index
column, one line per row, each line terminated by a newline. -/
def toCsvStr (hdr : List Cell) (indices : List Nat) (rows : List (List Cell)) : String :=
  let headerLine := String.intercalate "," ("" :: hdr.map csvField)
  let dataLines := (indices.zip rows).map
    (fun ir => String.intercalate "," (toString ir.1 :: ir.2.map csvField))
  String.intercalate "" ((headerLine :: dataLines).map (fun ln => ln ++ "\n"))

/-- The row index left on `all_data` by `pd.concat` + `.iloc[2:]`: each
region keeps its own `0..n-1` range index, and the first two positions are
dropped. -/
def dtcIndices (tables : List Df) : List Nat :=
  (listJoin (tables.map (fun t => List.range t.rows.length))).drop 2

/-- `data_to_csv` outcome as seen by the caller: Python's
`Union[str, ValueError]`. -/
inductive DtcResult where
  | csv (s : String)
  | err (e : PyErr)
  deriving DecidableEq

/-- `data_to_csv(pdf_path)` applied to the detected regions: reconcile the
regions and serialize the result with `to_csv`; a caught `ValueError` is
returned as a value, any other exception propagates. -/
def data_to_csv (tables : List Df) : Except PyErr DtcResult :=
  match reconcile tables with
  | .error e => .error e
  | .ok (.err e) => .ok (.err e)
  | .ok (.table hdr rows) => .ok (.csv (toCsvStr hdr (dtcIndices tables) rows))

/-- A cached file on disk: modification time and byte content. -/
structure FileInfo where
  mtime : Int
  content : String
  deriving DecidableEq

/-- The local filesystem as an association list from path to file; a write
shadows the previous entry. -/
abbrev Fs := List (String × FileInfo)

/-- `os.path.exists` + `os.stat`: the file at `p`, when present. -/
def fsLookup (fs : Fs) (p : String) : Option FileInfo :=
  match fs with
  | [] => none
  | (q, fi) :: rest => if q = p then some fi else fsLookup rest p

/-- `open(p, "wb").write(content)`: (over)write the file at `p`. -/
def fsWrite (fs : Fs) (p : String) (fi : FileInfo) : Fs :=
  (p, fi) :: fs

/-- What the network returns for one URL: the HEAD status, the parsed
`Last-Modified` time (`none` when the header is missing or unparsable, in
which case the source raises), and the GET status and body. -/
structure UrlResp where
  headStatus : Nat
  lastModified : Option Int
  getStatus : Nat
  content : String
  deriving DecidableEq

/-- The environment of the fetch stage: the network's response per URL and
the clock used as the mtime of freshly written files. -/
structure FetchWorld where
  resp : String → UrlResp
  now : Int

/-- The mutable state threaded through `download_pdfs`: the cache
filesystem, the entries pushed onto the asyncio queue (in push order), and
the `output_paths` return list. -/
structure DState where
  fs : Fs
  queue : List String
  paths : List String
  deriving DecidableEq

/-- One iteration of the `for url in report_urls` loop of `download_pdfs`:
HEAD the URL; on a non-200 status do nothing; otherwise parse
`Last-Modified` (raising `KeyError` when absent), derive the cache path,
run the staleness test against the on-disk mtime, GET and overwrite the
cache file when stale and the GET returns 200, and finally append the path
to `output_paths` and push it onto the queue. -/
def download_step (w : FetchWorld) (cache_dir : String) (st : DState)
    (url : String) : Except PyErr DState :=
  let r := w.resp url
  if r.headStatus == 200 then
    match r.lastModified with
    | none => .error .keyError
    | some web_time =>
      let output_path := pathJoin cache_dir (url_filename url)
      let fs1 :=
        if stale_decision web_time ((fsLookup st.fs output_path).map FileInfo.mtime) then
          if r.getStatus == 200 then fsWrite st.fs output_path ⟨w.now, r.content⟩
          else st.fs
        else st.fs
      .ok ⟨fs1, st.queue ++ [output_path], st.paths ++ [output_path]⟩
  else .ok st

/-- The loop of `download_pdfs(q, report_urls, cache_dir)` over the URL
list (the directory-creation preamble, which can only raise `IOError`, is
not modelled — no claim involves it). -/
def download_pdfs (w : FetchWorld) (cache_dir : String) (st : DState) :
    List String → Except PyErr DState
  | [] => .ok st
  | url :: rest =>
    match download_step w cache_dir st url with
    | .error e => .error e
    | .ok st' => download_pdfs w cache_dir st' rest

/-- Python `str.replace(pat, rep)`: replace every occurrence, scanning left
to right.  Structural recursion on a fuel argument (instantiated with the
input length, which the scan never exceeds) keeps the definition
kernel-reducible. -/
def replaceAllAux (pat rep : List Char) : Nat → List Char → List Char
  | _, [] => []
  | 0, l => l
  | fuel + 1, c :: rest =>
    if pat ≠ [] ∧ pat.isPrefixOf (c :: rest) then
      rep ++ replaceAllAux pat rep fuel ((c :: rest).drop pat.length)
    else
      c :: replaceAllAux pat rep fuel rest

/-- Python `str.replace` on `String`s. -/
def pyReplace (s pat rep : String) : String :=
  ⟨replaceAllAux pat.data rep.data s.data.length s.data⟩

/-- Python `pat in s` (substring containment). -/
def listContainsSub (pat : List Char) : List Char → Bool
  | [] => pat.isEmpty
  | c :: rest => pat.isPrefixOf (c :: rest) || listContainsSub pat rest

/-- `os.path.basename` for the POSIX paths the program builds. -/
def basename (p : String) : String :=
  lastSegment p

/-- The output filename `save_csvs` derives from a cached PDF path:
`os.path.basename(pdf_path).replace(".pdf", ".csv")`, with the known
misspelling `Expantions` corrected to `Expansions` when present. -/
def csv_filename (pdf_path : String) : String :=
  let f := pyReplace (basename pdf_path) ".pdf" ".csv"
  if listContainsSub "Expantions".data f.data then pyReplace f "Expantions" "Expansions"
  else f

/-- The environment of the transform stage: `camelot.read_pdf` as a
function from the PDF path to the detected regions (or the exception it
raises), and the clock used as the mtime of written CSV files. -/
structure TransformWorld where
  detect : String → Except PyErr (List Df)
  now : Int

/-- One iteration of the `while True` loop of `save_csvs`, after `q.get()`
returned `pdf_path` (the per-iteration directory check, which can only
raise `IOError`, is not modelled — no claim involves it):

* `os.stat(pdf_path)` — raises `FileNotFoundError` when the cached file is
  absent (nothing catches it: the worker dies);
* derive the output path and run the staleness test against its mtime;
* when stale, run `data_to_csv`: a string result is written to the output
  path, a returned `ValueError` is only logged (no write), and any raised
  exception propagates out of the loop uncaught;
* when not stale, log "already processed" and write nothing. -/
def save_csvs_step (w : TransformWorld) (csv_path : String) (fs : Fs)
    (pdf_path : String) : Except PyErr Fs :=
  match fsLookup fs pdf_path with
  | none => .error .fileNotFound
  | some pdfInfo =>
    let output_path := pathJoin csv_path (csv_filename pdf_path)
    if stale_decision pdfInfo.mtime ((fsLookup fs output_path).map FileInfo.mtime) then
      match w.detect pdf_path with
      | .error e => .error e
      | .ok tables =>
        match data_to_csv tables with
        | .error e => .error e
        | .ok (.csv s) => .ok (fsWrite fs output_path ⟨w.now, s⟩)
        | .ok (.err _) => .ok fs
    else .ok fs

/-- A first region whose header row's first cell (`"Num"`) is not the
literal `"Number"`: the malformed-header variant, used as the concrete
input of witnesses. -/
def wellFormedT0 : Df :=
  ⟨2, [[some "t1", some "t2"], [some "Num", some "H2"], [some "d1", some "d2"]]⟩

/-- A first region whose header row's first cell is already `"Number"`. -/
def cleanHeaderT0 : Df :=
  ⟨2, [[some "t1", some "t2"], [some "Number", some "H2"], [some "d1", some "d2"]]⟩

/-- Two regions whose widths (2 and 3) cannot be aligned with the
two-column header: reconciliation fails with the caught `ValueError`. -/
def mismatchTables : List Df :=
  [⟨2, [[some "a", some "b"], [some "Number", some "h"]]⟩,
   ⟨3, [[some "c", some "d", some "e"]]⟩]

/-- A transform-stage environment whose table detection returns
`mismatchTables` for every path. -/
def mismatchWorld : TransformWorld := ⟨fun _ => .ok mismatchTables, 7⟩

/-- A transform-stage environment whose table detection always raises
(a corrupt document makes `camelot.read_pdf` throw). -/
def detectRaisesWorld : TransformWorld := ⟨fun _ => .error .camelotError, 0⟩

/-- A cache filesystem holding one PDF and no CSV output yet. -/
def onePdfFs : Fs := [("pdfs/doc.pdf", ⟨100, "PDF"⟩)]

/-- A network where exactly one URL answers the HEAD request with 200 and a
parsable `Last-Modified`, and the GET succeeds. -/
def fetchWorldA : FetchWorld :=
  ⟨fun u => if u = "http://h/a.pdf" then ⟨200, some 50, 200, "A"⟩ else ⟨404, none, 0, ""⟩, 77⟩

/-- A network where the HEAD request succeeds but the full GET fails. -/
def fetchWorldB : FetchWorld :=
  ⟨fun _ => ⟨200, some 50, 500, ""⟩, 77⟩

section StringLemmas

/-- Every character surviving `get_valid_filename` passes `keepChar`. -/
theorem keepChar_of_mem_get_valid_filename {s : String} {c : Char}
    (h : c ∈ (get_valid_filename s).data) : keepChar c = true := by
  have hdata : (get_valid_filename s).data
      = ((pyStripList s.data).map (fun c => if c == ' ' then '_' else c)).filter keepChar := rfl
  rw [hdata] at h
  exact List.of_mem_filter h

/-- A kept character is not Python whitespace. -/
theorem not_space_of_keepChar {c : Char} (h : keepChar c = true) :
    pyIsSpaceChar c = false := by
  by_contra hcon
  have hsp : pyIsSpaceChar c = true := by
    cases hc : pyIsSpaceChar c
    · exact absurd hc hcon
    · rfl
  simp only [pyIsSpaceChar, Bool.or_eq_true, beq_iff_eq] at hsp
  rcases hsp with ((((h1 | h2) | h3) | h4) | h5) | h6 <;>
    subst_vars <;> simp [keepChar, isWordChar, Char.isAlphanum, Char.isAlpha,
      Char.isUpper, Char.isLower, Char.isDigit] at h

/-- A kept character is not a space. -/
theorem ne_space_of_keepChar {c : Char} (h : keepChar c = true) :
    (c == ' ') = false := by
  cases hc : c == ' '
  · rfl
  · have : c = ' ' := by exact beq_iff_eq.mp hc
    subst this
    simp [keepChar, isWordChar, Char.isAlphanum, Char.isAlpha,
      Char.isUpper, Char.isLower, Char.isDigit] at h

/-- `dropWhile` is the identity on a list none of whose elements satisfy
the predicate. -/
theorem dropWhile_eq_self_of_all_false {p : Char → Bool} :
    ∀ l : List Char, (∀ c ∈ l, p c = false) → l.dropWhile p = l := by
  intro l h
  cases l with
  | nil => rfl
  | cons c rest =>
    have hc : p c = false := h c (List.mem_cons_self c rest)
    simp [List.dropWhile, hc]

/-- `pyStripList` is the identity on a list with no whitespace characters. -/
theorem pyStripList_eq_self_of_no_space {l : List Char}
    (h : ∀ c ∈ l, pyIsSpaceChar c = false) : pyStripList l = l := by
  unfold pyStripList
  rw [dropWhile_eq_self_of_all_false l h]
  rw [dropWhile_eq_self_of_all_false l.reverse (fun c hc => h c (List.mem_reverse.mp hc))]
  exact List.reverse_reverse l

/-- Mapping a function that fixes every element of a list is the identity. -/
theorem map_eq_self_of_fixed {f : Char → Char} :
    ∀ l : List Char, (∀ c ∈ l, f c = c) → l.map f = l := by
  intro l h
  induction l with
  | nil => rfl
  | cons c rest ih =>
    simp only [List.map_cons]
    rw [h c (List.mem_cons_self c rest), ih (fun d hd => h d (List.mem_cons_of_mem c hd))]

end StringLemmas

/-- Membership in a concatenation comes from membership in one of the
pieces. -/
theorem mem_listJoin {α : Type} {a : α} {ls : List (List α)} :
    a ∈ listJoin ls ↔ ∃ l ∈ ls, a ∈ l := by
  induction ls with
  | nil => simp [listJoin]
  | cons l rest ih => simp [listJoin, List.mem_append, ih]

/-- Every DataFrame in a list is at most as wide as `maxW`. -/
theorem ncols_le_maxW {d : Df} {dfs : List Df} (h : d ∈ dfs) : d.ncols ≤ maxW dfs := by
  induction dfs with
  | nil => cases h
  | cons x rest ih =>
    rcases List.mem_cons.mp h with rfl | hmem
    · exact Nat.le_max_left _ _
    · exact Nat.le_trans (ih hmem) (Nat.le_max_right _ _)

/-- Padding a row no longer than `w` yields length exactly `w`. -/
theorem length_padTo {w : Nat} {r : List Cell} (h : r.length ≤ w) :
    (padTo w r).length = w := by
  simp only [padTo, List.length_append, List.length_replicate]
  omega

/-- All rows of a `pd.concat` of rectangular DataFrames have the
concatenation's width. -/
theorem pdConcat_row_length {dfs : List Df} (hwf : ∀ d ∈ dfs, DfWF d) :
    ∀ r ∈ (pdConcat dfs).rows, r.length = maxW dfs := by
  intro r hr
  rcases mem_listJoin.mp hr with ⟨l, hl, hrl⟩
  rcases List.mem_map.mp hl with ⟨d, hd, rfl⟩
  rcases List.mem_map.mp hrl with ⟨r0, hr0, rfl⟩
  refine length_padTo ?_
  rw [hwf d hd r0 hr0]
  exact ncols_le_maxW hd

/-- Characterization of a successful `reconcile`: the produced header, the
produced rows, and the header-length equation that made the column
assignment succeed, each as a function of the `broken_format` flag. -/
theorem reconcile_ok_table {t0 : Df} {rest : List Df} {hdrRow : List Cell}
    {s0 : String} {hdr : List Cell} {rows : List (List Cell)}
    (h1 : t0.rows[1]? = some hdrRow) (h0 : hdrRow[0]? = some (some s0))
    (hok : reconcile (t0 :: rest) = .ok (.table hdr rows)) :
    hdr = (if pyStrip s0 != "Number" then hdrRow.set 0 (some "Number") else hdrRow)
    ∧ rows = (if pyStrip s0 != "Number"
        then ((pdConcat (t0 :: rest)).rows.drop 2).map (fun r => r.take 10)
        else (pdConcat (t0 :: rest)).rows.drop 2)
    ∧ hdr.length = (if pyStrip s0 != "Number"
        then min 10 (pdConcat (t0 :: rest)).ncols else (pdConcat (t0 :: rest)).ncols) := by
  simp only [reconcile, h1, h0] at hok
  split at hok
  · next hb =>
    split at hok
    · next hlen =>
      injection hok with h'
      injection h' with hh hr
      subst hh
      subst hr
      simp [hb, hlen]
    · next =>
      injection hok with h'
      cases h'
  · next hb =>
    split at hok
    · next hlen =>
      injection hok with h'
      injection h' with hh hr
      subst hh
      subst hr
      simp [hb, hlen]
    · next =>
      injection hok with h'
      cases h'

/-- A URL whose HEAD request does not return 200 leaves the fetch state
untouched. -/
theorem download_step_skip (w : FetchWorld) (cache_dir : String) (st : DState) (url : String)
    (h : (w.resp url).headStatus ≠ 200) :
    download_step w cache_dir st url = .ok st := by
  simp only [download_step, beq_eq_false_iff_ne.mpr h, Bool.false_eq_true, if_false]

/-- A URL whose HEAD request returns 200 with a parsable `Last-Modified`
always appends its derived cache path to the queue and to `output_paths`,
whatever the staleness test and the GET outcome do to the filesystem. -/
theorem download_step_pass (w : FetchWorld) (cache_dir : String) (st : DState)
    (url : String) (web_time : Int)
    (hhead : (w.resp url).headStatus = 200)
    (hlm : (w.resp url).lastModified = some web_time) :
    ∃ fs1, download_step w cache_dir st url
      = .ok ⟨fs1, st.queue ++ [pathJoin cache_dir (url_filename url)],
          st.paths ++ [pathJoin cache_dir (url_filename url)]⟩ := by
  simp only [download_step, hhead, hlm, beq_self_eq_true, if_true]
  exact ⟨_, rfl⟩

/-- Claim C1 counterexample: at reference time `-1` with a present candidate
artifact of the equal timestamp `-1`, the code's decision treats the artifact
as stale (the sentinel `-1` is conflated with absence), while the claim says
equal timestamps are NOT stale. -/
theorem c1_stale_equal_times_counterexample :
    stale_decision (-1) (some (-1)) = true ∧ is_stale (-1) (some (-1)) = false := by
  decide

/-- Claim C1 (amended): for every pair whose present candidate timestamp is
not the sentinel `-1` (in particular every nonnegative timestamp), the code's
staleness decision agrees with the spec's contract: stale iff the candidate
is absent or strictly older, and equal timestamps are not stale. -/
theorem c1_stale_decision_matches_spec (reference_time : Int)
    (candidate_time : Option Int)
    (h : Option.all (fun t => t != -1) candidate_time = true) :
    stale_decision reference_time candidate_time
      = is_stale reference_time candidate_time := by
  cases candidate_time with
  | none => rfl
  | some t =>
    have ht : t ≠ -1 := by simpa [Option.all] using h
    have hbeq : (t == -1) = false := beq_eq_false_iff_ne.mpr ht
    simp [stale_decision, is_stale, hbeq]

/-- Witness for C1 (amended) at equal timestamps `5 = 5`: the hypothesis
holds and both the code and the spec declare the artifact not stale. -/
theorem c1_stale_decision_matches_spec_witness :
    Option.all (fun t => t != -1) (some (5 : Int)) = true
      ∧ stale_decision 5 (some 5) = is_stale 5 (some 5) :=
  ⟨by decide, c1_stale_decision_matches_spec 5 (some 5) (by decide)⟩

/-- Claim C7: cache filename derivation is a pure function of the URL's
trailing path segment; every character of the sanitized output is an
alphanumeric, dash, underscore or dot; and the segment `Report (final).pdf`
sanitizes to `Report_final.pdf`. -/
theorem c7_filename_derivation :
    (∀ s : String, ∀ c ∈ (get_valid_filename s).data,
        c.isAlphanum = true ∨ c = '-' ∨ c = '_' ∨ c = '.')
    ∧ (∀ u v : String, lastSegment u = lastSegment v → url_filename u = url_filename v)
    ∧ url_filename "http://ocpo.example.gov/docs/Report (final).pdf" = "Report_final.pdf" := by
  refine ⟨?_, ?_, by decide⟩
  · intro s c hc
    have hk := keepChar_of_mem_get_valid_filename hc
    simp only [keepChar, isWordChar, Bool.or_eq_true, beq_iff_eq] at hk
    rcases hk with ((ha | h_) | hd) | hdot
    · exact Or.inl ha
    · exact Or.inr (Or.inr (Or.inl h_))
    · exact Or.inr (Or.inl hd)
    · exact Or.inr (Or.inr (Or.inr hdot))
  · intro u v h
    unfold url_filename
    rw [h]

/-- Witness for C7 at the concrete segment `Report (final).pdf` and its
first output character `R`. -/
theorem c7_filename_derivation_witness :
    Char.isAlphanum 'R' = true ∨ 'R' = '-' ∨ 'R' = '_' ∨ 'R' = '.' :=
  c7_filename_derivation.1 "Report (final).pdf" 'R' (by decide)

/-- Claim C10: `get_valid_filename` is idempotent — an already-sanitized
filename is a fixed point. -/
theorem c10_get_valid_filename_idempotent (s : String) :
    get_valid_filename (get_valid_filename s) = get_valid_filename s := by
  have hkeep : ∀ c ∈ (get_valid_filename s).data, keepChar c = true :=
    fun c hc => keepChar_of_mem_get_valid_filename hc
  have hstrip : pyStripList (get_valid_filename s).data = (get_valid_filename s).data :=
    pyStripList_eq_self_of_no_space (fun c hc => not_space_of_keepChar (hkeep c hc))
  have hmap : ((get_valid_filename s).data).map (fun c => if c == ' ' then '_' else c)
      = (get_valid_filename s).data :=
    map_eq_self_of_fixed _ (fun c hc => by simp [ne_space_of_keepChar (hkeep c hc)])
  have hfilt : ((get_valid_filename s).data).filter keepChar = (get_valid_filename s).data :=
    List.filter_eq_self.mpr hkeep
  show (⟨((pyStripList (get_valid_filename s).data).map
      (fun c => if c == ' ' then '_' else c)).filter keepChar⟩ : String)
    = get_valid_filename s
  rw [hstrip, hmap, hfilt]

/-- Claim C2: for a document whose detected header's first cell (after
trimming) is not the literal `"Number"`, a successful reconciliation yields
`"Number"` as the first column name, and every data row has exactly the
header's column count. -/
theorem c2_header_repair (t0 : Df) (rest : List Df) (hdrRow : List Cell)
    (s0 : String) (hdr : List Cell) (rows : List (List Cell))
    (hwf : ∀ d ∈ t0 :: rest, DfWF d)
    (h1 : t0.rows[1]? = some hdrRow)
    (h0 : hdrRow[0]? = some (some s0))
    (hnum : pyStrip s0 ≠ "Number")
    (hok : reconcile (t0 :: rest) = .ok (.table hdr rows)) :
    hdr.head? = some (some "Number") ∧ ∀ r ∈ rows, r.length = hdr.length := by
  have hb : (pyStrip s0 != "Number") = true := bne_iff_ne.mpr hnum
  obtain ⟨hhdr, hrows, hlen⟩ := reconcile_ok_table h1 h0 hok
  simp only [hb, if_true] at hhdr hrows hlen
  constructor
  · subst hhdr
    cases hdrRow with
    | nil => simp at h0
    | cons c tl => rfl
  · intro r hrr
    rw [hrows] at hrr
    rcases List.mem_map.mp hrr with ⟨r0, hr0, rfl⟩
    have hr0' : r0 ∈ (pdConcat (t0 :: rest)).rows := List.drop_subset _ _ hr0
    have hlen0 : r0.length = maxW (t0 :: rest) := pdConcat_row_length hwf r0 hr0'
    rw [List.length_take, hlen0, hlen]
    rfl

/-- Witness for C2 on `wellFormedT0` (header cell `"Num"`): the repaired
header starts with `"Number"` and the single data row has its length. -/
theorem c2_header_repair_witness :
    pyStrip "Num" ≠ "Number"
    ∧ (([some "Number", some "H2"] : List Cell).head? = some (some "Number")
      ∧ ∀ r ∈ ([[some "d1", some "d2"]] : List (List Cell)),
          r.length = ([some "Number", some "H2"] : List Cell).length) :=
  ⟨by decide,
    c2_header_repair wellFormedT0 [] [some "Num", some "H2"] "Num"
      [some "Number", some "H2"] [[some "d1", some "d2"]]
      (by decide) rfl rfl (by decide) rfl⟩

/-- Claim C3 counterexample: with two regions of widths 2 and 1, the
reconciled data row is the narrow row *padded with a NaN cell to width 2*
(pandas `concat` semantics), not the plain concatenation of the regions'
rows that the claim describes. -/
theorem c3_counterexample :
    reconcile [⟨2, [[some "x", some "y"], [some "Number", some "h"]]⟩, ⟨1, [[some "c"]]⟩]
      = .ok (.table [some "Number", some "h"] [[some "c", none]])
    ∧ ([[some "c", none]] : List (List Cell))
      ≠ (listJoin ([⟨2, [[some "x", some "y"], [some "Number", some "h"]]⟩,
          (⟨1, [[some "c"]]⟩ : Df)].map Df.rows)).drop 2 :=
  ⟨by rfl, by decide⟩

/-- Claim C3 (amended): a successful reconciliation takes the second row of
the first region as the canonical header (repaired exactly when its first
trimmed cell is not `"Number"`); the data rows are all regions' rows in
region order, each padded with NaN cells to the widest region's width, with
the first two rows of the concatenation dropped; and every data row is
truncated to its first 10 columns exactly when the broken-variant flag is
set. -/
theorem c3_reconcile_structure (t0 : Df) (rest : List Df) (hdrRow : List Cell)
    (s0 : String) (hdr : List Cell) (rows : List (List Cell))
    (h1 : t0.rows[1]? = some hdrRow)
    (h0 : hdrRow[0]? = some (some s0))
    (hok : reconcile (t0 :: rest) = .ok (.table hdr rows)) :
    (pyStrip s0 = "Number" → hdr = hdrRow ∧
      rows = (listJoin ((t0 :: rest).map (fun d => d.rows.map (padTo (maxW (t0 :: rest)))))).drop 2)
    ∧ (pyStrip s0 ≠ "Number" → hdr = hdrRow.set 0 (some "Number") ∧
      rows = ((listJoin ((t0 :: rest).map (fun d => d.rows.map (padTo (maxW (t0 :: rest)))))).drop 2).map
        (fun r => r.take 10)) := by
  obtain ⟨hhdr, hrows, -⟩ := reconcile_ok_table h1 h0 hok
  constructor
  · intro heq
    have hb : (pyStrip s0 != "Number") = false := by simp [heq]
    simp only [hb, Bool.false_eq_true, if_false] at hhdr hrows
    exact ⟨hhdr, hrows⟩
  · intro hne
    have hb : (pyStrip s0 != "Number") = true := bne_iff_ne.mpr hne
    simp only [hb, if_true] at hhdr hrows
    exact ⟨hhdr, hrows⟩

/-- Witness for C3 (amended) on `cleanHeaderT0`: the header is taken
unrepaired and the data rows are the padded concatenation minus its first
two rows. -/
theorem c3_reconcile_structure_witness :
    pyStrip "Number" = "Number"
    ∧ (([some "Number", some "H2"] : List Cell) = [some "Number", some "H2"]
      ∧ ([[some "d1", some "d2"]] : List (List Cell))
          = (listJoin ([cleanHeaderT0].map
              (fun d => d.rows.map (padTo (maxW [cleanHeaderT0]))))).drop 2) :=
  ⟨rfl,
    (c3_reconcile_structure cleanHeaderT0 [] [some "Number", some "H2"] "Number"
      [some "Number", some "H2"] [[some "d1", some "d2"]] rfl rfl rfl).1 rfl⟩

/-- Claim C4 counterexample: when table detection raises on an item (a
corrupt document), the exception propagates out of the worker's iteration
instead of being caught — the worker stops rather than proceeding. -/
theorem c4_uncaught_exception_counterexample :
    save_csvs_step detectRaisesWorld "csv" onePdfFs "pdfs/doc.pdf" = .error .camelotError := rfl

/-- Claim C4 (amended): the only per-item failure handled at the worker
boundary is the `ValueError` that `data_to_csv` catches during the
concat/truncate/header-assignment step and returns as a value — in that
case the worker logs it, writes nothing and proceeds.  Every other
exception — a missing cached file at `os.stat`, a raising table detection,
or any exception thrown inside `data_to_csv` — propagates out of the
worker's loop uncaught. -/
theorem c4_only_valueerror_is_caught (w : TransformWorld) (csv_path pdf_path : String)
    (fs : Fs) :
    (fsLookup fs pdf_path = none →
      save_csvs_step w csv_path fs pdf_path = .error .fileNotFound)
    ∧ ∀ pdfInfo, fsLookup fs pdf_path = some pdfInfo →
        stale_decision pdfInfo.mtime
          ((fsLookup fs (pathJoin csv_path (csv_filename pdf_path))).map FileInfo.mtime) = true →
        ((∀ e, w.detect pdf_path = .error e →
            save_csvs_step w csv_path fs pdf_path = .error e)
          ∧ (∀ tables e, w.detect pdf_path = .ok tables → data_to_csv tables = .error e →
              save_csvs_step w csv_path fs pdf_path = .error e)
          ∧ (∀ tables e, w.detect pdf_path = .ok tables → data_to_csv tables = .ok (.err e) →
              save_csvs_step w csv_path fs pdf_path = .ok fs)) := by
  constructor
  · intro hnone
    simp [save_csvs_step, hnone]
  · intro pdfInfo hpdf hstale
    refine ⟨?_, ?_, ?_⟩
    · intro e hdet
      simp [save_csvs_step, hpdf, hstale, hdet]
    · intro tables e hdet hdtc
      simp [save_csvs_step, hpdf, hstale, hdet, hdtc]
    · intro tables e hdet hdtc
      simp [save_csvs_step, hpdf, hstale, hdet, hdtc]

/-- Witness for C4 (amended) in the handled case: a returned `ValueError`
leaves the filesystem unchanged and the worker alive. -/
theorem c4_only_valueerror_is_caught_witness :
    fsLookup onePdfFs "pdfs/doc.pdf" = some ⟨100, "PDF"⟩
    ∧ save_csvs_step mismatchWorld "csv" onePdfFs "pdfs/doc.pdf" = .ok onePdfFs :=
  ⟨rfl,
    ((c4_only_valueerror_is_caught mismatchWorld "csv" "pdfs/doc.pdf" onePdfFs).2
      ⟨100, "PDF"⟩ rfl (by decide)).2.2 mismatchTables .valueError rfl (by rfl)⟩

/-- Claim C5: a URL whose HEAD request returns a non-success status is
skipped entirely — no cache write, no queue entry, no entry in the returned
path list (the fetch state is unchanged). -/
theorem c5_head_failure_is_noop (w : FetchWorld) (cache_dir : String) (st : DState)
    (url : String) (h : (w.resp url).headStatus ≠ 200) :
    download_step w cache_dir st url = .ok st :=
  download_step_skip w cache_dir st url h

/-- Witness for C5 on `fetchWorldA` and a URL answering 404. -/
theorem c5_head_failure_is_noop_witness :
    (fetchWorldA.resp "http://h/b.pdf").headStatus ≠ 200
    ∧ download_step fetchWorldA "pdfs" ⟨[], [], []⟩ "http://h/b.pdf" = .ok ⟨[], [], []⟩ :=
  ⟨by decide, c5_head_failure_is_noop fetchWorldA "pdfs" ⟨[], [], []⟩ "http://h/b.pdf" (by decide)⟩

/-- Claim C6: a URL that passed the metadata check and was judged stale
but whose full GET fails leaves the cache untouched, yet its local path is
still pushed onto the queue and still appears in the returned path list. -/
theorem c6_get_failure_still_queued (w : FetchWorld) (cache_dir : String) (st : DState)
    (url : String) (web_time : Int)
    (hhead : (w.resp url).headStatus = 200)
    (hlm : (w.resp url).lastModified = some web_time)
    (hstale : stale_decision web_time
        ((fsLookup st.fs (pathJoin cache_dir (url_filename url))).map FileInfo.mtime) = true)
    (hget : (w.resp url).getStatus ≠ 200) :
    download_step w cache_dir st url
      = .ok ⟨st.fs, st.queue ++ [pathJoin cache_dir (url_filename url)],
          st.paths ++ [pathJoin cache_dir (url_filename url)]⟩ := by
  simp only [download_step, hhead, hlm, beq_self_eq_true, if_true, hstale,
    beq_eq_false_iff_ne.mpr hget, Bool.false_eq_true, if_false]

/-- Witness for C6 on `fetchWorldB` (HEAD 200, GET 500) over an empty
cache: nothing is written but the path is queued and returned. -/
theorem c6_get_failure_still_queued_witness :
    (fetchWorldB.resp "http://h/a.pdf").getStatus ≠ 200
    ∧ download_step fetchWorldB "pdfs" ⟨[], [], []⟩ "http://h/a.pdf"
        = .ok ⟨[], ["pdfs/a.pdf"], ["pdfs/a.pdf"]⟩ :=
  ⟨by decide,
    c6_get_failure_still_queued fetchWorldB "pdfs" ⟨[], [], []⟩ "http://h/a.pdf" 50
      rfl rfl (by decide) (by decide)⟩

/-- Claim C8: when the header length and the reconciled column count cannot
be aligned, `data_to_csv` returns the caught `ValueError` as a value rather
than raising it, and the consuming worker writes nothing, leaving the
filesystem — in particular any prior output artifact — untouched. -/
theorem c8_reconcile_error (t0 : Df) (rest : List Df) (hdrRow : List Cell) (s0 : String)
    (w : TransformWorld) (fs : Fs) (pdf_path csv_path : String) (pdfInfo : FileInfo)
    (h1 : t0.rows[1]? = some hdrRow)
    (h0 : hdrRow[0]? = some (some s0))
    (hmis : hdrRow.length ≠ (if pyStrip s0 != "Number" then min 10 (pdConcat (t0 :: rest)).ncols
        else (pdConcat (t0 :: rest)).ncols))
    (hpdf : fsLookup fs pdf_path = some pdfInfo)
    (hdet : w.detect pdf_path = .ok (t0 :: rest)) :
    data_to_csv (t0 :: rest) = .ok (.err .valueError)
    ∧ save_csvs_step w csv_path fs pdf_path = .ok fs := by
  have hrec : reconcile (t0 :: rest) = .ok (.err .valueError) := by
    simp only [reconcile, h1, h0]
    split
    · next hb =>
      simp only [hb, if_true] at hmis
      rw [if_neg]
      simpa [List.length_set] using hmis
    · next hb =>
      have hb' : (pyStrip s0 != "Number") = false := by
        cases hx : (pyStrip s0 != "Number")
        · rfl
        · exact absurd hx hb
      simp only [hb', Bool.false_eq_true, if_false] at hmis
      rw [if_neg]
      exact hmis
  have hdtc : data_to_csv (t0 :: rest) = .ok (.err .valueError) := by
    simp only [data_to_csv, hrec]
  refine ⟨hdtc, ?_⟩
  simp only [save_csvs_step, hpdf]
  split
  · simp only [hdet, hdtc]
  · rfl

/-- Witness for C8 on `mismatchTables` (header width 2, data width 3): the
error is returned as a value and the pre-existing filesystem survives
byte-for-byte. -/
theorem c8_reconcile_error_witness :
    ([some "Number", some "h"] : List Cell).length
        ≠ (if pyStrip "Number" != "Number" then min 10 (pdConcat mismatchTables).ncols
            else (pdConcat mismatchTables).ncols)
    ∧ (data_to_csv mismatchTables = .ok (.err .valueError)
      ∧ save_csvs_step mismatchWorld "csv" onePdfFs "pdfs/doc.pdf" = .ok onePdfFs) :=
  ⟨by decide,
    c8_reconcile_error ⟨2, [[some "a", some "b"], [some "Number", some "h"]]⟩
      [⟨3, [[some "c", some "d", some "e"]]⟩] [some "Number", some "h"] "Number"
      mismatchWorld onePdfFs "pdfs/doc.pdf" "csv" ⟨100, "PDF"⟩
      rfl rfl (by decide) rfl rfl⟩

/-- Claim C9: over any URL list, the fetch stage pushes exactly one queue
entry per URL whose HEAD request returned 200 — whether or not a download
occurred — in input order, and the returned path list is identical
(assuming, as the source does, that every passing URL carries a parsable
`Last-Modified` header). -/
theorem c9_one_queue_entry_per_passing_url (w : FetchWorld) (cache_dir : String)
    (urls : List String) (st : DState)
    (h : ∀ u ∈ urls, (w.resp u).headStatus = 200 → ((w.resp u).lastModified).isSome = true) :
    ∃ st', download_pdfs w cache_dir st urls = .ok st'
      ∧ st'.queue = st.queue
          ++ (urls.filter (fun u => (w.resp u).headStatus == 200)).map
              (fun u => pathJoin cache_dir (url_filename u))
      ∧ st'.paths = st.paths
          ++ (urls.filter (fun u => (w.resp u).headStatus == 200)).map
              (fun u => pathJoin cache_dir (url_filename u)) := by
  induction urls generalizing st with
  | nil => exact ⟨st, rfl, by simp [download_pdfs], by simp [download_pdfs]⟩
  | cons u rest ih =>
    by_cases hu : (w.resp u).headStatus = 200
    · have hsome := h u (List.mem_cons_self u rest) hu
      obtain ⟨wt, hwt⟩ := Option.isSome_iff_exists.mp hsome
      obtain ⟨fs1, hstep⟩ :=
        download_step_pass w cache_dir st u wt hu hwt
      obtain ⟨st', hrun, hq, hp⟩ :=
        ih ⟨fs1, st.queue ++ [pathJoin cache_dir (url_filename u)],
            st.paths ++ [pathJoin cache_dir (url_filename u)]⟩
          (fun v hv hv200 => h v (List.mem_cons_of_mem u hv) hv200)
      refine ⟨st', ?_, ?_, ?_⟩
      · simp only [download_pdfs, hstep]
        exact hrun
      · rw [hq]
        simp [List.filter_cons, hu]
      · rw [hp]
        simp [List.filter_cons, hu]
    · have hstep := download_step_skip w cache_dir st u hu
      obtain ⟨st', hrun, hq, hp⟩ := ih st (fun v hv hv200 => h v (List.mem_cons_of_mem u hv) hv200)
      refine ⟨st', ?_, ?_, ?_⟩
      · simp only [download_pdfs, hstep]
        exact hrun
      · rw [hq]
        simp [List.filter_cons, hu]
      · rw [hp]
        simp [List.filter_cons, hu]

/-- Witness for C9 on `fetchWorldA` with one passing and one failing URL:
exactly the passing URL's derived path is queued and returned. -/
theorem c9_one_queue_entry_per_passing_url_witness :
    (∀ u ∈ ["http://h/a.pdf", "http://h/b.pdf"],
      (fetchWorldA.resp u).headStatus = 200 → ((fetchWorldA.resp u).lastModified).isSome = true)
    ∧ ∃ st', download_pdfs fetchWorldA "pdfs" ⟨[], [], []⟩ ["http://h/a.pdf", "http://h/b.pdf"]
        = .ok st'
      ∧ st'.queue = ([] : List String)
          ++ (["http://h/a.pdf", "http://h/b.pdf"].filter
              (fun u => (fetchWorldA.resp u).headStatus == 200)).map
                (fun u => pathJoin "pdfs" (url_filename u))
      ∧ st'.paths = ([] : List String)
          ++ (["http://h/a.pdf", "http://h/b.pdf"].filter
              (fun u => (fetchWorldA.resp u).headStatus == 200)).map
                (fun u => pathJoin "pdfs" (url_filename u)) :=
  ⟨by decide,
    c9_one_queue_entry_per_passing_url fetchWorldA "pdfs"
      ["http://h/a.pdf", "http://h/b.pdf"] ⟨[], [], []⟩ (by decide)⟩
